import Mathlib

/-!
Verification of the notelock core (src/app.js): an ephemeral, exactly-once
note store with age-based expiry behind an admission-control pipeline.
The store is an in-memory SQLite table `notelock (uuid, note, created)`;
we embed it as a list of rows in insertion order, since the code's
`find.get` returns the first matching row and `DELETE WHERE uuid = ?`
removes every matching row.
-/

namespace Notelock

/-- Configuration constant from src/app.js line 14: sweep interval in minutes. -/
def exInterval : Nat := 5

/-- Configuration constant from src/app.js line 15: note lifetime in hours. -/
def noteLife : Nat := 24

/-- Configuration constant from src/app.js line 18: slow-down window in minutes. -/
def spdTimeWindow : Nat := 15

/-- Configuration constant from src/app.js line 19: requests allowed before the delay starts. -/
def spdMaxRequests : Nat := 1

/-- Configuration constant from src/app.js line 20: maximum delay in seconds. -/
def spdMaxDelayTime : Nat := 10

/-- Configuration constant from src/app.js line 23: encryption rate-limit window in minutes. -/
def encTimeWindow : Nat := 30

/-- Configuration constant from src/app.js line 24: encryption requests allowed per window. -/
def encMaxRequests : Nat := 10

/-- Configuration constant from src/app.js line 27: global rate-limit window in minutes. -/
def reqTimeWindow : Nat := 15

/-- Configuration constant from src/app.js line 28: page requests allowed per window. -/
def reqMaxRequests : Nat := 100

/-- Configuration constant from src/app.js line 31. -/
def apiOnly : Bool := false

/-- Configuration constant from src/app.js line 34. -/
def customBranding : String := ""

/-- A row of the `notelock` table (src/app.js line 192): uuid, note text and
creation timestamp.  The code stores `toISOString()` strings; we model the
instant as hours since an epoch placed at a UTC midnight, which determines
the string's date and time-of-day fields. -/
structure Row where
  uuid : String
  note : String
  created : Nat
deriving DecidableEq

/-- The in-memory table, in insertion (rowid) order. -/
abbrev Store := List Row

/-- dbAddData (src/app.js lines 197-202): INSERT a new row.  The table's
`uuid TEXT PRIMARY_KEY` column declaration is not a `PRIMARY KEY` constraint,
so the insert always appends and duplicates are possible. -/
def dbAddData (newID cipherText : String) (now : Nat) (s : Store) : Store :=
  s ++ [⟨newID, cipherText, now⟩]

/-- dbFindData (src/app.js lines 205-216): SELECT the first row with the given
uuid and return its note column; `none` models the `false` returned when no
row matches. -/
def dbFindData (uuid : String) (s : Store) : Option String :=
  (s.find? (fun r => r.uuid == uuid)).map (fun r => r.note)

/-- JavaScript truthiness of a `dbFindData` result: `false` is falsy and so is
the empty string, hence a row whose note is `''` tests as absent. -/
def jsTruthy : Option String → Bool
  | none => false
  | some c => c != ""

/-- dbDeleteValue (src/app.js lines 234-247): DELETE every row with the given
uuid. -/
def dbDeleteValue (uuid : String) (s : Store) : Store :=
  s.filter (fun r => !(r.uuid == uuid))

/-- The UTC calendar date of an instant, instants being counted in hours
from an epoch placed at a UTC midnight. -/
def utcDate (t : Nat) : Nat := t / 24

/-- dbExpireValue (src/app.js lines 250-264): DELETE every row with
`created < datetime('now', '-24 hours')`, a bytewise TEXT comparison.  The
`created` column holds `toISOString()` values `YYYY-MM-DDTHH:mm:ss.sssZ`
while the cutoff prints as `YYYY-MM-DD HH:MM:SS`.  When the two UTC dates
differ, the shared zero-padded date prefix decides the comparison; on equal
dates the row's `T` (0x54) sorts above the cutoff's space (0x20), so the
row compares greater and is kept.  A row is therefore deleted exactly when
its UTC creation date strictly precedes the UTC date of the cutoff instant
`now - noteLife`. -/
def dbExpireValue (now : Nat) (s : Store) : Store :=
  s.filter (fun r => !(decide (utcDate r.created < utcDate (now - noteLife))))

/-- A rendered response page.  The GET handler (src/app.js lines 316-345)
renders `note.ejs` with a cipher payload (the not-found branch passes the
constant empty cipher), or `index.ejs` when no note is requested. -/
inductive Page where
  | note (cipher : String) (apionly : Bool) (branding : String)
  | index (apionly : Bool) (branding : String)
deriving DecidableEq

/-- The `note.ejs` render with the configured flags (src/app.js lines 329, 334). -/
def notePage (cipher : String) : Page :=
  Page.note cipher apiOnly customBranding

/-- The id extraction `note.substring(0, 21)` of src/app.js line 321. -/
def strTake21 (q : String) : String :=
  ⟨q.data.take 21⟩

/-- The read path `app.get('/')` with a note query (src/app.js lines 316-335):
truncate the query to 21 characters, look the id up, and if the result is
truthy render it and purge the row; otherwise render the not-found page and
leave the store unchanged. -/
def retrieve (q : String) (s : Store) : Page × Store :=
  let noteId := strTake21 q
  match dbFindData noteId s with
  | some cipherText =>
    if cipherText != "" then (notePage cipherText, dbDeleteValue noteId s)
    else (notePage "", s)
  | none => (notePage "", s)

/-- The write path `app.post('/encrypt')` collision loop (src/app.js lines
298-305): draw candidate ids in order from the nanoid stream `candidates`;
a candidate whose `dbFindData` result is truthy collides and is discarded,
otherwise the note is inserted under it.  `none` means every candidate in
the supplied stream collided, i.e. the `while (true)` loop is still running:
the code has no attempt bound and no error path out of the loop. -/
def submit (candidates : List String) (cipher : String) (now : Nat) (s : Store) :
    Option (String × Store) :=
  match candidates with
  | [] => none
  | c :: rest =>
    if jsTruthy (dbFindData c s) then submit rest cipher now s
    else some (c, dbAddData c cipher now s)

/-- Number of loop iterations `submit` performs on the given candidate stream
(one per colliding candidate, plus one for the successful insert). -/
def submitAttempts (candidates : List String) (s : Store) : Nat :=
  match candidates with
  | [] => 0
  | c :: rest =>
    if jsTruthy (dbFindData c s) then 1 + submitAttempts rest s else 1

/-- A fixed 21-character id, as produced by `nanoid()` (src/app.js line 300). -/
def idA : String := "AAAAAAAAAAAAAAAAAAAAA"

/-- Another fixed 21-character nanoid-shaped id. -/
def idB : String := "BBBBBBBBBBBBBBBBBBBBB"

/-! ### Store lemmas -/

/-- Truncation is the identity on strings of at most 21 characters, such as
the 21-character ids nanoid produces. -/
theorem strTake21_of_length_le (q : String) (h : q.data.length ≤ 21) :
    strTake21 q = q := by
  unfold strTake21
  rw [List.take_of_length_le h]

/-- A successful pass of the collision loop inserts under an id whose lookup
was falsy at insertion time. -/
theorem submit_eq_some {cands : List String} {b : String} {now : Nat} {s : Store}
    {id : String} {s' : Store} (h : submit cands b now s = some (id, s')) :
    jsTruthy (dbFindData id s) = false ∧ s' = dbAddData id b now s := by
  induction cands with
  | nil => simp [submit] at h
  | cons c rest ih =>
    rw [submit] at h
    by_cases hc : jsTruthy (dbFindData c s) = true
    · rw [if_pos hc] at h
      exact ih h
    · rw [if_neg hc] at h
      simp only [Option.some.injEq, Prod.mk.injEq] at h
      obtain ⟨rfl, rfl⟩ := h
      simp only [Bool.not_eq_true] at hc
      exact ⟨hc, rfl⟩

/-- The collision loop exhausts its candidate stream without terminating
exactly when every candidate's lookup is truthy (collides). -/
theorem submit_none_iff (cands : List String) (b : String) (now : Nat) (s : Store) :
    submit cands b now s = none ↔ ∀ c ∈ cands, jsTruthy (dbFindData c s) = true := by
  induction cands with
  | nil => simp [submit]
  | cons c rest ih =>
    rw [submit]
    by_cases hc : jsTruthy (dbFindData c s) = true
    · simp [hc, ih]
    · simp [hc]

/-- On a stream of identical colliding candidates the loop makes one attempt
per candidate. -/
theorem submitAttempts_replicate (n : Nat) (id : String) (s : Store)
    (h : jsTruthy (dbFindData id s) = true) :
    submitAttempts (List.replicate n id) s = n := by
  induction n with
  | zero => simp [submitAttempts]
  | succ m ih =>
    rw [List.replicate_succ, submitAttempts, if_pos h, ih]
    omega

/-- In a store whose notes are all non-empty, a falsy lookup means no row
matches at all. -/
theorem dbFindData_eq_none (id : String) (s : Store)
    (hs : ∀ r ∈ s, r.note ≠ "") (h : jsTruthy (dbFindData id s) = false) :
    dbFindData id s = none := by
  unfold dbFindData at h ⊢
  cases hf : s.find? (fun r => r.uuid == id) with
  | none => simp
  | some r =>
    exfalso
    rw [hf] at h
    simp only [Option.map_some', jsTruthy, bne_eq_false_iff_eq] at h
    exact hs r (List.mem_of_find?_eq_some hf) h

/-- A lookup that returns no note found no row. -/
theorem find?_eq_none_of_dbFindData (id : String) (s : Store)
    (h : dbFindData id s = none) :
    s.find? (fun r => r.uuid == id) = none := by
  unfold dbFindData at h
  cases hf : s.find? (fun r => r.uuid == id) with
  | none => rfl
  | some r => rw [hf] at h; simp at h

/-- Looking an id up after appending a row, when no earlier row matched,
reduces to looking it up in the appended row alone. -/
theorem dbFindData_append (id : String) (s : Store) (r : Row)
    (h : dbFindData id s = none) :
    dbFindData id (s ++ [r]) = dbFindData id [r] := by
  unfold dbFindData
  rw [List.find?_append, find?_eq_none_of_dbFindData id s h]
  rfl

/-- Deleting an id that no earlier row carries from a freshly extended store
removes exactly the appended row. -/
theorem dbDeleteValue_dbAddData (id b : String) (now : Nat) (s : Store)
    (h : dbFindData id s = none) :
    dbDeleteValue id (dbAddData id b now s) = s := by
  unfold dbDeleteValue dbAddData
  rw [List.filter_append]
  have hall := List.find?_eq_none.mp (find?_eq_none_of_dbFindData id s h)
  have h1 : s.filter (fun r => !(r.uuid == id)) = s :=
    List.filter_eq_self.mpr (fun r hr => by simp [hall r hr])
  rw [h1]
  simp

/-- A retrieval whose lookup is falsy takes the not-found branch: the constant
empty-cipher page, store unchanged. -/
theorem retrieve_falsy (q : String) (s : Store)
    (h : jsTruthy (dbFindData (strTake21 q) s) = false) :
    retrieve q s = (notePage "", s) := by
  cases hd : dbFindData (strTake21 q) s with
  | none => simp [retrieve, hd]
  | some c =>
    rw [hd] at h
    have hc : (c != "") = false := h
    simp [retrieve, hd, hc]

/-! ### C1: exactly-once retrieval -/

/-- C1 fails as stated: a submit of the empty blob under id `idA` leaves a
row that the collision check treats as free, so a later submit of `"abc"`
can be issued the same id; the first retrieve of that id then returns the
not-found page and removes nothing, instead of returning `"abc"`. -/
theorem claim1_counterexample :
    submit [idA] "abc" 1 [⟨idA, "", 0⟩] = some (idA, [⟨idA, "", 0⟩, ⟨idA, "abc", 1⟩]) ∧
    retrieve idA [⟨idA, "", 0⟩, ⟨idA, "abc", 1⟩] =
      (notePage "", [⟨idA, "", 0⟩, ⟨idA, "abc", 1⟩]) := by decide

/-- C1 (amended): exactly-once retrieval holds for a submit of a non-empty
blob into a store whose records all have non-empty blobs (as is the case
when every submission is non-empty): the first retrieve of the returned
21-character id renders the blob and removes the record, and every
subsequent retrieve returns the not-found page and leaves the store as it
is. -/
theorem claim1_amended (cands : List String) (b : String) (now : Nat) (s : Store)
    (id : String) (s' : Store)
    (hb : b ≠ "") (hs : ∀ r ∈ s, r.note ≠ "")
    (hsub : submit cands b now s = some (id, s'))
    (hlen : id.data.length ≤ 21) :
    retrieve id s' = (notePage b, s) ∧ retrieve id s = (notePage "", s) := by
  obtain ⟨hfalse, rfl⟩ := submit_eq_some hsub
  have hnone : dbFindData id s = none := dbFindData_eq_none id s hs hfalse
  have htake : strTake21 id = id := strTake21_of_length_le id hlen
  have hfind : dbFindData id (dbAddData id b now s) = some b := by
    unfold dbAddData
    rw [dbFindData_append id s _ hnone]
    simp [dbFindData]
  have hbne : (b != "") = true := bne_iff_ne.mpr hb
  constructor
  · simp only [retrieve, htake, hfind, hbne, if_true]
    rw [dbDeleteValue_dbAddData id b now s hnone]
  · simp [retrieve, htake, hnone]

/-- Witness for C1 at a concrete run: submit `"abc"` into the empty store. -/
theorem claim1_witness :
    retrieve idA [⟨idA, "abc", 0⟩] = (notePage "abc", []) ∧
    retrieve idA [] = (notePage "", []) :=
  claim1_amended [idA] "abc" 0 [] idA [⟨idA, "abc", 0⟩]
    (by decide) (by simp) (by decide) (by decide)

/-! ### C2: bounded collision retry -/

/-- C2 fails as stated: with the single live id `idA` and a nanoid stream
that keeps producing `idA`, the collision loop performs 1000 retry attempts
and has neither terminated nor surfaced any error condition. -/
theorem claim2_counterexample :
    submit (List.replicate 1000 idA) "blob" 7 [⟨idA, "x", 0⟩] = none ∧
    submitAttempts (List.replicate 1000 idA) [⟨idA, "x", 0⟩] = 1000 := by
  have h : jsTruthy (dbFindData idA [(⟨idA, "x", 0⟩ : Row)]) = true := by decide
  refine ⟨(submit_none_iff ..).mpr fun c hc => ?_,
    submitAttempts_replicate 1000 idA _ h⟩
  rw [List.eq_of_mem_replicate hc]
  exact h

/-- C2 (amended): the collision loop is unbounded and has no error path: for
every `n`, a stream of `n` colliding candidates costs `n` retry attempts
with the loop still running and no `ExhaustedRetries` (or any other error)
surfaced; the loop terminates exactly when some candidate's id is free. -/
theorem claim2_amended (b : String) (now : Nat) (s : Store) (id : String) (n : Nat)
    (hcol : jsTruthy (dbFindData id s) = true) :
    submit (List.replicate n id) b now s = none ∧
    submitAttempts (List.replicate n id) s = n ∧
    ∀ cands, submit cands b now s = none ↔
      ∀ c ∈ cands, jsTruthy (dbFindData c s) = true := by
  refine ⟨(submit_none_iff ..).mpr fun c hc => ?_,
    submitAttempts_replicate n id s hcol,
    fun cands => submit_none_iff cands b now s⟩
  rw [List.eq_of_mem_replicate hc]
  exact hcol

/-- Witness for C2 at a concrete colliding store and stream. -/
theorem claim2_witness :
    submit (List.replicate 3 idA) "b" 7 [⟨idA, "x", 0⟩] = none ∧
    submitAttempts (List.replicate 3 idA) [⟨idA, "x", 0⟩] = 3 ∧
    ∀ cands, submit cands "b" 7 [⟨idA, "x", 0⟩] = none ↔
      ∀ c ∈ cands, jsTruthy (dbFindData c [⟨idA, "x", 0⟩]) = true :=
  claim2_amended "b" 7 [⟨idA, "x", 0⟩] idA 3 (by decide)

/-! ### C3: validation of empty submissions -/

/-- C3 fails as stated: a submit whose blob is the empty string is not
rejected; it returns an id and the empty-blob record reaches the store,
which is changed by the submission. -/
theorem claim3_counterexample :
    submit [idA] "" 5 [] = some (idA, [⟨idA, "", 5⟩]) ∧
    ([⟨idA, "", 5⟩] : Store) ≠ [] := by decide

/-- C3 (amended): the write path performs no blob validation: whenever a
submission of the empty blob terminates, it returns an id and the
empty-blob record has been inserted into the store. -/
theorem claim3_amended (cands : List String) (now : Nat) (s : Store)
    (id : String) (s' : Store) (h : submit cands "" now s = some (id, s')) :
    s' = dbAddData id "" now s ∧ (⟨id, "", now⟩ : Row) ∈ s' := by
  obtain ⟨h1, rfl⟩ := submit_eq_some h
  exact ⟨rfl, by simp [dbAddData]⟩

/-- Witness for C3 at a concrete empty-blob submission. -/
theorem claim3_witness :
    ([⟨idA, "", 5⟩] : Store) = dbAddData idA "" 5 [] ∧
    (⟨idA, "", 5⟩ : Row) ∈ ([⟨idA, "", 5⟩] : Store) :=
  claim3_amended [idA] 5 [] idA [⟨idA, "", 5⟩] (by decide)

/-! ### C4: indistinguishable NotFound -/

/-- C4: retrieval of an absent id — never issued, already consumed, or
already expired — always produces the one constant not-found page and
leaves the store unchanged, so the response reveals nothing about the cause
of absence. -/
theorem claim4_indistinguishable (q1 q2 : String) (s1 s2 : Store)
    (h1 : jsTruthy (dbFindData (strTake21 q1) s1) = false)
    (h2 : jsTruthy (dbFindData (strTake21 q2) s2) = false) :
    (retrieve q1 s1).1 = (retrieve q2 s2).1 ∧
    (retrieve q1 s1).1 = notePage "" ∧
    (retrieve q1 s1).2 = s1 := by
  rw [retrieve_falsy q1 s1 h1, retrieve_falsy q2 s2 h2]
  exact ⟨rfl, rfl, rfl⟩

/-- Witness for C4: an id that was never issued (empty store) and an id
absent from a non-empty store give the same response. -/
theorem claim4_witness :
    (retrieve "unknownUnknownUnknown" []).1 = (retrieve idA [⟨idB, "y", 0⟩]).1 ∧
    (retrieve "unknownUnknownUnknown" []).1 = notePage "" ∧
    (retrieve "unknownUnknownUnknown" []).2 = [] :=
  claim4_indistinguishable "unknownUnknownUnknown" idA [] [⟨idB, "y", 0⟩]
    (by decide) (by decide)

/-! ### C5: sweep boundary -/

/-- C5 fails as stated: a record created at t=0 (a UTC midnight) and never
retrieved is KEPT by the sweep tick at t=25 — and still by the tick at
t=47, age 47 ≥ TTL 24 — because the bytewise comparison keeps every row
whose UTC creation date equals the cutoff's UTC date; retrieving its id
afterwards still returns the note rather than NotFound. -/
theorem claim5_counterexample :
    dbExpireValue 25 [⟨idA, "abc", 0⟩] = [⟨idA, "abc", 0⟩] ∧
    dbExpireValue 47 [⟨idA, "abc", 0⟩] = [⟨idA, "abc", 0⟩] ∧
    retrieve idA [⟨idA, "abc", 0⟩] = (notePage "abc", []) := by decide

/-- C5 (amended): expiry is date-granular: a sweep tick at `now` removes
exactly the records whose UTC creation date strictly precedes the UTC date
of the cutoff instant `now - TTL`.  Consequently no record is removed
before reaching age TTL, and every record is gone once the tick time
reaches the UTC midnight opening its creation date plus 48 hours (age at
most TTL + 24).  A record created at t=0, a UTC midnight, is kept by the
tick at t=25 and removed by the tick at t=48, after which retrieving its
id returns the not-found page. -/
theorem claim5_amended (r : Row) (s : Store) (now : Nat) (hr : r ∈ s) :
    (r ∈ dbExpireValue now s ↔ utcDate (now - noteLife) ≤ utcDate r.created) ∧
    (now < r.created + noteLife → r ∈ dbExpireValue now s) ∧
    (utcDate r.created * 24 + 48 ≤ now → r ∉ dbExpireValue now s) ∧
    dbExpireValue 25 [⟨idA, "abc", 0⟩] = [⟨idA, "abc", 0⟩] ∧
    dbExpireValue 48 [⟨idA, "abc", 0⟩] = [] ∧
    retrieve idA (dbExpireValue 48 [⟨idA, "abc", 0⟩]) = (notePage "", []) := by
  have hmem : r ∈ dbExpireValue now s ↔ utcDate (now - noteLife) ≤ utcDate r.created := by
    unfold dbExpireValue
    rw [List.mem_filter]
    simp [hr, Nat.not_lt]
  refine ⟨hmem, fun hage => hmem.mpr ?_, fun hold hin => ?_,
    by decide, by decide, by decide⟩
  · simp only [utcDate, noteLife] at hage ⊢
    omega
  · have hle := hmem.mp hin
    simp only [utcDate, noteLife] at hle hold
    omega

/-- Witness for C5 at a concrete record of age 70 hours, removed because its
creation date lies two UTC dates before the cutoff's. -/
theorem claim5_witness :
    ((⟨idB, "x", 30⟩ : Row) ∈ dbExpireValue 100 [⟨idB, "x", 30⟩] ↔
      utcDate (100 - noteLife) ≤ utcDate 30) ∧
    (100 < 30 + noteLife → (⟨idB, "x", 30⟩ : Row) ∈ dbExpireValue 100 [⟨idB, "x", 30⟩]) ∧
    (utcDate 30 * 24 + 48 ≤ 100 → (⟨idB, "x", 30⟩ : Row) ∉ dbExpireValue 100 [⟨idB, "x", 30⟩]) ∧
    dbExpireValue 25 [⟨idA, "abc", 0⟩] = [⟨idA, "abc", 0⟩] ∧
    dbExpireValue 48 [⟨idA, "abc", 0⟩] = [] ∧
    retrieve idA (dbExpireValue 48 [⟨idA, "abc", 0⟩]) = (notePage "", []) :=
  claim5_amended ⟨idB, "x", 30⟩ [⟨idB, "x", 30⟩] 100 (by simp)

/-! ### C9: 21-character prefix addressing -/

/-- C9 fails as stated: the record under `idB` is live, the supplied string
is exactly its id, yet retrieval takes the not-found branch and consumes
nothing, because the record's blob is empty and the lookup result is
falsy. -/
theorem claim9_counterexample :
    (retrieve idB [⟨idB, "", 3⟩]).2 = [⟨idB, "", 3⟩] ∧
    (retrieve idB [⟨idB, "", 3⟩]).1 = notePage "" := by decide

/-- C9 (amended): for every record with a non-empty blob that is the store's
entry for its id, retrieval succeeds — returning the blob and deleting the
record — for any supplied string whose first 21 characters equal that id,
regardless of trailing characters; and any two supplied strings sharing
their first 21 characters address the same record. -/
theorem claim9_amended (s : Store) (r : Row) (q : String)
    (hfind : s.find? (fun x => x.uuid == r.uuid) = some r)
    (hnote : r.note ≠ "")
    (hq : strTake21 q = r.uuid) :
    (retrieve q s).1 = notePage r.note ∧
    (retrieve q s).2 = dbDeleteValue r.uuid s ∧
    ∀ q2, strTake21 q2 = strTake21 q → retrieve q2 s = retrieve q s := by
  have hdb : dbFindData r.uuid s = some r.note := by
    unfold dbFindData
    rw [hfind]
    rfl
  have hbne : (r.note != "") = true := bne_iff_ne.mpr hnote
  have hret : retrieve q s = (notePage r.note, dbDeleteValue r.uuid s) := by
    simp [retrieve, hq, hdb, hbne, hnote]
  refine ⟨by rw [hret], by rw [hret], ?_⟩
  intro q2 hq2
  simp only [retrieve, hq2]

/-- Witness for C9: a query with three trailing characters past the
21-character id still retrieves the record. -/
theorem claim9_witness :
    (retrieve (idA ++ "ZZZ") [⟨idA, "abc", 0⟩]).1 = notePage "abc" ∧
    (retrieve (idA ++ "ZZZ") [⟨idA, "abc", 0⟩]).2 = dbDeleteValue idA [⟨idA, "abc", 0⟩] ∧
    ∀ q2, strTake21 q2 = strTake21 (idA ++ "ZZZ") →
      retrieve q2 [⟨idA, "abc", 0⟩] = retrieve (idA ++ "ZZZ") [⟨idA, "abc", 0⟩] :=
  claim9_amended [⟨idA, "abc", 0⟩] ⟨idA, "abc", 0⟩ (idA ++ "ZZZ")
    (by decide) (by decide) (by decide)

/-! ### C10: empty-blob records behave as absent -/

/-- C10: a live id whose stored blob is empty is treated as absent: its
retrieval renders the not-found page and deletes nothing, the collision
check counts the id as free so an insert proceeds under it, and any
retrieval that does mutate the store found a non-empty blob — only
non-empty-blob records are retrievable. -/
theorem claim10_empty_blob (s : Store) (q : String)
    (hc : dbFindData (strTake21 q) s = some "") :
    retrieve q s = (notePage "", s) ∧
    jsTruthy (dbFindData (strTake21 q) s) = false ∧
    (∀ b now rest, submit (strTake21 q :: rest) b now s =
      some (strTake21 q, dbAddData (strTake21 q) b now s)) ∧
    (∀ q2 s2, (retrieve q2 s2).2 ≠ s2 →
      ∃ n, dbFindData (strTake21 q2) s2 = some n ∧ n ≠ "") := by
  have hfalse : jsTruthy (dbFindData (strTake21 q) s) = false := by rw [hc]; rfl
  refine ⟨retrieve_falsy q s hfalse, hfalse, ?_, ?_⟩
  · intro b now rest
    rw [submit, if_neg (by rw [hfalse]; exact Bool.false_ne_true)]
  · intro q2 s2 hne
    cases hd : dbFindData (strTake21 q2) s2 with
    | none => rw [retrieve_falsy q2 s2 (by rw [hd]; rfl)] at hne; simp at hne
    | some n =>
      by_cases hn : (n != "") = true
      · exact ⟨n, rfl, bne_iff_ne.mp hn⟩
      · rw [retrieve_falsy q2 s2 (by rw [hd]; exact eq_false_of_ne_true hn)] at hne
        simp at hne

/-- Witness for C10 at a concrete empty-blob record. -/
theorem claim10_witness :
    retrieve idB [⟨idB, "", 2⟩] = (notePage "", [⟨idB, "", 2⟩]) ∧
    jsTruthy (dbFindData (strTake21 idB) [⟨idB, "", 2⟩]) = false ∧
    (∀ b now rest, submit (strTake21 idB :: rest) b now [⟨idB, "", 2⟩] =
      some (strTake21 idB, dbAddData (strTake21 idB) b now [⟨idB, "", 2⟩])) ∧
    (∀ q2 s2, (retrieve q2 s2).2 ≠ s2 →
      ∃ n, dbFindData (strTake21 q2) s2 = some n ∧ n ≠ "") :=
  claim10_empty_blob [⟨idB, "", 2⟩] idB (by decide)

/-! ### Admission control -/

/-- Modelled from the spec: the per-client window state `ClientWindowState`
(spec section 3) kept by the express-rate-limit middleware, whose
implementation is not part of this repository; only its configuration
(src/app.js lines 107-133) is. -/
structure LimiterState where
  windowStart : Nat
  count : Nat
deriving DecidableEq

/-- Modelled from the spec: one qualifying request at time `t` against a
fixed window of length `W` and cap `N` (express-rate-limit, not in src).
When the window has elapsed the counter resets and a new window opens at
`t`; otherwise the count increments; the request is allowed while the
count stays within the cap.  `none` is a client with no window open. -/
def limiterStep (W N t : Nat) (st : Option LimiterState) : Bool × LimiterState :=
  match st with
  | none => (decide (1 ≤ N), ⟨t, 1⟩)
  | some st =>
    if st.windowStart + W ≤ t then (decide (1 ≤ N), ⟨t, 1⟩)
    else (decide (st.count + 1 ≤ N), ⟨st.windowStart, st.count + 1⟩)

/-- Modelled from the spec: a client's sequence of qualifying requests run
through one limiter, returning the per-request verdicts and the final
state. -/
def limiterRun (W N : Nat) (ts : List Nat) (st : Option LimiterState) :
    List Bool × Option LimiterState :=
  match ts with
  | [] => ([], st)
  | t :: rest =>
    ((limiterStep W N t st).1 ::
        (limiterRun W N rest (some (limiterStep W N t st).2)).1,
      (limiterRun W N rest (some (limiterStep W N t st).2)).2)

/-- Unfolding of `limiterRun` on a first request. -/
theorem limiterRun_cons (W N t : Nat) (rest : List Nat) (st : Option LimiterState) :
    limiterRun W N (t :: rest) st =
      ((limiterStep W N t st).1 ::
          (limiterRun W N rest (some (limiterStep W N t st).2)).1,
        (limiterRun W N rest (some (limiterStep W N t st).2)).2) := rfl

/-- Within an open window each request increments the counter and is allowed
exactly while the incremented count stays within the cap. -/
theorem limiterRun_within (W N w : Nat) (ts : List Nat) :
    ∀ c, (∀ t ∈ ts, t < w + W) →
      limiterRun W N ts (some ⟨w, c⟩) =
        ((List.range ts.length).map (fun i => decide (c + i + 1 ≤ N)),
          some ⟨w, c + ts.length⟩) := by
  induction ts with
  | nil =>
    intro c _
    simp [limiterRun]
  | cons t rest ih =>
    intro c h
    have ht : t < w + W := h t (List.mem_cons_self t rest)
    have hrest : ∀ x ∈ rest, x < w + W := fun x hx => h x (List.mem_cons_of_mem t hx)
    have hstep : limiterStep W N t (some ⟨w, c⟩) = (decide (c + 1 ≤ N), ⟨w, c + 1⟩) := by
      rw [limiterStep, if_neg (Nat.not_le.mpr ht)]
    simp only [limiterRun_cons, hstep]
    rw [ih (c + 1) hrest]
    have hf : (fun i => decide (c + 1 + i + 1 ≤ N)) =
        ((fun i => decide (c + i + 1 ≤ N)) ∘ Nat.succ) := by
      funext i
      simp only [Function.comp_apply]
      exact decide_eq_decide.mpr (by omega)
    have hlen2 : c + 1 + rest.length = c + (rest.length + 1) := by omega
    simp only [List.length_cons, List.range_succ_eq_map, List.map_cons, List.map_map,
      Nat.add_zero, hlen2, hf]

/-- All the verdicts over `range m` against the bound `m` are allowed. -/
theorem range_map_decide_lt (m : Nat) :
    (List.range m).map (fun i => decide (i < m)) = List.replicate m true := by
  have h : ∀ b ∈ (List.range m).map (fun i => decide (i < m)), b = true := by
    intro b hb
    obtain ⟨i, hi, rfl⟩ := List.mem_map.mp hb
    simp [List.mem_range.mp hi]
  have h2 := List.eq_replicate_of_mem h
  simpa using h2

/-- The verdict sequence of a fresh client making N+1 requests in one
window: the first N allowed, the last rejected. -/
theorem limiter_verdicts (N : Nat) (hN : 1 ≤ N) :
    decide (1 ≤ N) :: (List.range N).map (fun i => decide (1 + i + 1 ≤ N)) =
      List.replicate N true ++ [false] := by
  obtain ⟨m, rfl⟩ : ∃ m, N = m + 1 := ⟨N - 1, by omega⟩
  have hf : (fun i => decide (1 + i + 1 ≤ m + 1)) = (fun i => decide (i < m)) := by
    funext i
    exact decide_eq_decide.mpr (by omega)
  rw [hf, List.range_succ, List.map_append, range_map_decide_lt]
  simp [List.replicate_succ]

/-! ### C6: limiter cap and window reset -/

/-- C6: against either hard limiter (window `W`, cap `N`, spec-modelled
fixed-window semantics; configurations src/app.js lines 107-133), a fresh
client whose N+1 requests all fall inside the window opened by the first
one succeeds on the first N and is rejected on the (N+1)-th, and a request
after the window has elapsed resets the counter and succeeds. -/
theorem claim6_limiter (W N t0 tR : Nat) (ts : List Nat)
    (hN : 1 ≤ N) (hlen : ts.length = N)
    (hts : ∀ t ∈ ts, t < t0 + W) (hR : t0 + W ≤ tR) :
    limiterRun W N (t0 :: ts) none =
      (List.replicate N true ++ [false], some ⟨t0, N + 1⟩) ∧
    (limiterStep W N tR (some ⟨t0, N + 1⟩)).1 = true := by
  constructor
  · have h0 : limiterStep W N t0 none = (decide (1 ≤ N), ⟨t0, 1⟩) := rfl
    simp only [limiterRun_cons, h0]
    rw [limiterRun_within W N t0 ts 1 hts, hlen, limiter_verdicts N hN,
      Nat.add_comm 1 N]
  · rw [limiterStep, if_pos hR]
    simp [hN]

/-- Witness for C6: window 5, cap 2, requests at times 0, 1, 2 and a reset
request at time 5. -/
theorem claim6_witness :
    limiterRun 5 2 [0, 1, 2] none =
      (List.replicate 2 true ++ [false], some ⟨0, 2 + 1⟩) ∧
    (limiterStep 5 2 5 (some ⟨0, 2 + 1⟩)).1 = true :=
  claim6_limiter 5 2 0 5 [1, 2] (by decide) (by decide) (by decide) (by decide)

/-! ### C7: progressive slowdown -/

/-- The delayMs callback of the speed limiter (src/app.js line 92):
`(hits) => (hits - spdMaxRequests) * 100` milliseconds. -/
def delayMsFn (hits : Nat) : Nat := (hits - spdMaxRequests) * 100

/-- Maximum delay in milliseconds (src/app.js line 93). -/
def spdMaxDelayMs : Nat := spdMaxDelayTime * 1000

/-- Modelled from the spec: the express-slow-down middleware (configured at
src/app.js lines 89-94, library not in this repository) applies no delay
while the hit count is within `delayAfter = T` and otherwise delays by the
configured function of the hit count, capped at the maximum delay. -/
def slowDownDelay (T unit maxD hits : Nat) : Nat :=
  if hits ≤ T then 0 else min ((hits - T) * unit) maxD

/-- The speed limiter as configured in src/app.js lines 89-94. -/
def speedLimiterDelay (hits : Nat) : Nat :=
  if hits ≤ spdMaxRequests then 0 else min (delayMsFn hits) spdMaxDelayMs

/-- C7: the delay of the k-th request past the soft threshold T equals
`min ((k - T) * unitDelay) maxDelay`, is non-decreasing in k, and below
the threshold no delay is applied; the configured speed limiter is this
policy at T = spdMaxRequests, unitDelay = 100 ms, maxDelay = 10 s. -/
theorem claim7_slowdown (T unit maxD k j : Nat) (hk : T < k) (hkj : k ≤ j) :
    slowDownDelay T unit maxD k = min ((k - T) * unit) maxD ∧
    slowDownDelay T unit maxD k ≤ slowDownDelay T unit maxD j ∧
    (∀ i, i ≤ T → slowDownDelay T unit maxD i = 0) ∧
    ∀ h, speedLimiterDelay h = slowDownDelay spdMaxRequests 100 spdMaxDelayMs h := by
  have hj : T < j := lt_of_lt_of_le hk hkj
  refine ⟨?_, ?_, ?_, ?_⟩
  · rw [slowDownDelay, if_neg (Nat.not_le.mpr hk)]
  · rw [slowDownDelay, if_neg (Nat.not_le.mpr hk),
      slowDownDelay, if_neg (Nat.not_le.mpr hj)]
    exact min_le_min (mul_le_mul_right' (Nat.sub_le_sub_right hkj T) unit) le_rfl
  · intro i hi
    rw [slowDownDelay, if_pos hi]
  · intro h
    rfl

/-- Witness for C7 at the configured constants and hits 3 and 5. -/
theorem claim7_witness :
    slowDownDelay 1 100 10000 3 = min ((3 - 1) * 100) 10000 ∧
    slowDownDelay 1 100 10000 3 ≤ slowDownDelay 1 100 10000 5 ∧
    (∀ i, i ≤ 1 → slowDownDelay 1 100 10000 i = 0) ∧
    ∀ h, speedLimiterDelay h = slowDownDelay spdMaxRequests 100 spdMaxDelayMs h :=
  claim7_slowdown 1 100 10000 3 5 (by decide) (by decide)

/-! ### C8: evaluation order of limiters and slowdown -/

/-- Window lengths in milliseconds as configured (src/app.js lines 90, 108, 123). -/
def spdWindowMs : Nat := spdTimeWindow * 60 * 1000

/-- Encryption limiter window in milliseconds (src/app.js line 108). -/
def encWindowMs : Nat := encTimeWindow * 60 * 1000

/-- Global limiter window in milliseconds (src/app.js line 123). -/
def reqWindowMs : Nat := reqTimeWindow * 60 * 1000

/-- Verdict of the `/encrypt` middleware chain. -/
inductive Outcome where
  | accepted
  | rejectedGlobal
  | rejectedWrite
deriving DecidableEq

/-- The middleware chain of a write request in registration order
(src/app.js lines 175-176 and 294): the global limiter `reqLimiter`, then
the slow-down delay `speedLimiter`, then the route-level write limiter
`encLimiter`.  Returns the verdict and the slow-down delay the request
incurred on the way; the limiter internals are spec-modelled, their order
and configuration come from the source. -/
def encryptPipeline (t : Nat) (reqSt : Option LimiterState) (spdHits : Nat)
    (encSt : Option LimiterState) : Outcome × Nat :=
  if (limiterStep reqWindowMs reqMaxRequests t reqSt).1 then
    if (limiterStep encWindowMs encMaxRequests t encSt).1 then
      (Outcome.accepted, speedLimiterDelay spdHits)
    else (Outcome.rejectedWrite, speedLimiterDelay spdHits)
  else (Outcome.rejectedGlobal, 0)

/-- C8 fails as stated: a client under the global cap but past the slowdown
threshold and at the write cap is rejected by the write limiter yet has
already incurred a non-zero slow-down delay, because the route-level
`encLimiter` runs after the application-level `speedLimiter`. -/
theorem claim8_counterexample :
    (encryptPipeline 1000 (some ⟨0, 5⟩) 50 (some ⟨0, 10⟩)).1 = Outcome.rejectedWrite ∧
    (encryptPipeline 1000 (some ⟨0, 5⟩) 50 (some ⟨0, 10⟩)).2 = 4900 ∧
    (encryptPipeline 1000 (some ⟨0, 5⟩) 50 (some ⟨0, 10⟩)).2 ≠ 0 := by decide

/-- C8 (amended): only the global limiter is evaluated before the slowdown
delay: a request it rejects incurs no delay; the write limiter is
evaluated after the delay, so a write request it rejects (like one it
accepts) has already incurred the full slow-down delay. -/
theorem claim8_amended (t : Nat) (rs : Option LimiterState) (hits : Nat)
    (es : Option LimiterState) :
    ((encryptPipeline t rs hits es).1 = Outcome.rejectedGlobal →
      (encryptPipeline t rs hits es).2 = 0) ∧
    ((encryptPipeline t rs hits es).1 = Outcome.rejectedWrite →
      (encryptPipeline t rs hits es).2 = speedLimiterDelay hits) ∧
    ((encryptPipeline t rs hits es).1 = Outcome.accepted →
      (encryptPipeline t rs hits es).2 = speedLimiterDelay hits) := by
  unfold encryptPipeline
  by_cases hr : (limiterStep reqWindowMs reqMaxRequests t rs).1 = true
  · by_cases he : (limiterStep encWindowMs encMaxRequests t es).1 = true
    · simp [hr, he]
    · simp [hr, he]
  · simp [hr]

/-- Witness for C8 at a concrete globally-rejected request. -/
theorem claim8_witness :
    (encryptPipeline 10 (some ⟨0, 100⟩) 50 (some ⟨0, 0⟩)).2 = 0 :=
  (claim8_amended 10 (some ⟨0, 100⟩) 50 (some ⟨0, 0⟩)).1 (by decide)

end Notelock
